import Mathlib

/-!
Verification of the Cognitive Echo Sentinel risk-fusion pipeline
(`backend/app/services/risk_engine.py` and
`backend/app/services/lexical_analyzer.py`).

Numbers are modelled as rationals (`ℚ`); Python's `round(x, n)` (ties to
even) is modelled exactly by `pyRound`.  The transcendental `math.exp` is
abstracted as an explicit function parameter `E : ℚ → ℚ` so that every
definition stays executable; all claims proved below hold for every `E`
except where a concrete instantiation is used to exhibit a counterexample.
The external LLM transport is modelled by an oracle `ℕ → CallAttempt`
giving the result of each HTTP attempt, and the classifier artifact by an
optional at-risk probability.
-/

namespace CES

/-- Model of `_clamp` from risk_engine.py (lines 594-595), at its default bounds
`lo=0.0, hi=100.0` (the only way the pipeline calls it). -/
def _clamp (v : ℚ) : ℚ := max 0 (min 100 v)

/-- Round a rational to the nearest integer, ties to even — the rounding
used by Python's built-in `round`. -/
def roundHalfEven (q : ℚ) : ℤ :=
  if q - ⌊q⌋ < 1/2 then ⌊q⌋
  else if 1/2 < q - ⌊q⌋ then ⌊q⌋ + 1
  else if ⌊q⌋ % 2 = 0 then ⌊q⌋ else ⌊q⌋ + 1

/-- Python's `round(q, n)`: round to `n` decimal digits, ties to even. -/
def pyRound (n : ℕ) (q : ℚ) : ℚ :=
  (roundHalfEven (q * 10 ^ n) : ℚ) / 10 ^ n

/-- Model of `_sigmoid_risk` from risk_engine.py (lines 598-601), with `math.exp`
abstracted as `E`. -/
def _sigmoid_risk (E : ℚ → ℚ) (value center steepness : ℚ) : ℚ :=
  100 / (1 + E (-((value - center) * steepness)))

/-- The acoustic `FeatureRecord` produced by `extract_features`
(audio_features.py; the 13-dim MFCC vectors are omitted: no function
verified here reads them). -/
structure Features where
  jitter_percent : ℚ
  shimmer_percent : ℚ
  mean_pitch_hz : ℚ
  pitch_std_hz : ℚ
  pitch_stability : ℚ
  pause_ratio : ℚ
  speech_rate : ℚ
  harmonics_to_noise : ℚ
deriving DecidableEq, Repr

/-- The baseline-comparison record returned by `compare_to_baseline`. -/
structure Baseline where
  deviation_score : ℚ
  mfcc_drift : ℚ
  pitch_deviation : ℚ
  rhythm_deviation : ℚ
  status : String
deriving DecidableEq, Repr

/-- The unrounded `mfcc_drift` sub-score of `compare_to_baseline`
(risk_engine.py line 80); `n1` is the `random.uniform(-5, 5)` draw. -/
def mfccDriftRaw (f : Features) (n1 : ℚ) : ℚ :=
  _clamp (|f.jitter_percent - 1.2| * 15 + |f.shimmer_percent - 3.5| * 5 + n1)

/-- The unrounded `pitch_deviation` sub-score (risk_engine.py line 82);
`n2` is the `random.uniform(-3, 3)` draw. -/
def pitchDeviationRaw (f : Features) (n2 : ℚ) : ℚ :=
  _clamp (|f.pitch_std_hz - 12| * 3 + n2)

/-- The unrounded `rhythm_deviation` sub-score (risk_engine.py line 83);
`n3` is the `random.uniform(-4, 4)` draw. -/
def rhythmDeviationRaw (f : Features) (n3 : ℚ) : ℚ :=
  _clamp (|f.pause_ratio - 0.12| * 120 + n3)

/-- Model of `compare_to_baseline` from risk_engine.py (lines 67-101).  The three
`random.uniform` perturbations are passed explicitly as `n1 n2 n3`. -/
def compare_to_baseline (f : Features) (n1 n2 n3 : ℚ) : Baseline :=
  let mfcc_drift := mfccDriftRaw f n1
  let pitch_deviation := pitchDeviationRaw f n2
  let rhythm_deviation := rhythmDeviationRaw f n3
  let deviation := _clamp (pyRound 2 (mfcc_drift * 0.4 + pitch_deviation * 0.3 + rhythm_deviation * 0.3))
  let status :=
    if deviation < 20 then "normal"
    else if deviation < 45 then "mild_drift"
    else if deviation < 70 then "significant_drift"
    else "critical_drift"
  { deviation_score := pyRound 2 deviation
    mfcc_drift := pyRound 2 mfcc_drift
    pitch_deviation := pyRound 2 pitch_deviation
    rhythm_deviation := pyRound 2 rhythm_deviation
    status := status }

/-- Model of `_heuristic_acoustic_risk` from risk_engine.py (lines 296-316). -/
def _heuristic_acoustic_risk (E : ℚ → ℚ) (f : Features) (b : Baseline) : ℚ :=
  let jitter_score := _sigmoid_risk E f.jitter_percent 2.0 3.0
  let shimmer_score := _sigmoid_risk E f.shimmer_percent 5.0 2.0
  let stability_risk := (1 - f.pitch_stability) * 100
  let hnr_risk := max 0 (100 - f.harmonics_to_noise * 4)
  let baseline_risk := b.deviation_score
  pyRound 1 (_clamp (jitter_score * 0.20 + shimmer_score * 0.15
    + stability_risk * 0.20 + hnr_risk * 0.15 + baseline_risk * 0.30))

/-- Model of `_probability_to_risk` from risk_engine.py (lines 226-238). -/
def _probability_to_risk (E : ℚ → ℚ) (proba_at_risk : ℚ) : ℚ :=
  pyRound 1 (_clamp (100 / (1 + E (-((proba_at_risk - 0.5) * 6.0)))))

/-- Model of `compute_acoustic_risk` from risk_engine.py (lines 243-293).  The
classifier is abstracted as `ml : Option ℚ`: `some p` models a successful
`predict_proba` call returning at-risk probability `p`; `none` models
`_ml_ready = False` or any caught inference exception (both fall through
to the heuristic-only branch). -/
def compute_acoustic_risk (E : ℚ → ℚ) (f : Features) (b : Baseline) (ml : Option ℚ) : ℚ :=
  let heuristic_score := _heuristic_acoustic_risk E f b
  match ml with
  | some prob =>
      pyRound 1 (_clamp (_probability_to_risk E prob * 0.40 + heuristic_score * 0.60))
  | none => heuristic_score

/-! ### Lexical analyzer (lexical_analyzer.py) -/

/-- Model of Python `str.strip()` (no arguments): remove leading and
trailing whitespace.  Defined structurally over the character list so
that it evaluates by reduction. -/
def pyStrip (s : String) : String :=
  ⟨((s.data.dropWhile Char.isWhitespace).reverse.dropWhile Char.isWhitespace).reverse⟩

/-- A Python/JSON scalar value as seen by `_validate_result`.  Python's
`bool` is a subclass of `int`, so it is kept as a separate constructor:
`isinstance(value, (int, float))` accepts it. -/
inductive PyVal where
  | pyBool (b : Bool)
  | pyInt (n : ℤ)
  | pyFloat (q : ℚ)
  | pyStr (s : String)
  | pyNone
deriving DecidableEq, Repr

/-- A parsed JSON object (Python `dict`), as an association list with
first-match lookup. -/
abbrev PyDict := List (String × PyVal)

/-- Model of `dict` key lookup (`key in result` / `result[key]`). -/
def dictGet (d : PyDict) (k : String) : Option PyVal :=
  (d.find? (fun p => p.1 == k)).map (·.2)

/-- Model of `isinstance(value, (int, float))` followed by `float(value)`:
Python `bool` is a subclass of `int` and coerces to `1.0` / `0.0`. -/
def asPyFloat : PyVal → Option ℚ
  | .pyBool b => some (if b then 1 else 0)
  | .pyInt n => some (n : ℚ)
  | .pyFloat q => some q
  | _ => none

/-- Model of `isinstance(value, str)`. -/
def asPyStr : PyVal → Option String
  | .pyStr s => some s
  | _ => none

/-- Model of `max(0.0, min(1.0, x))` — the clamp used on the four numeric lexical
fields (lexical_analyzer.py lines 241-244). -/
def clamp01 (q : ℚ) : ℚ := max 0 (min 1 q)

/-- The validated lexical metrics (the dict produced by
`analyze_lexical_cognition` on success, minus the later `status` key). -/
structure LexMetrics where
  vocabulary_richness : ℚ
  sentence_coherence : ℚ
  word_finding_difficulty : ℚ
  repetition_tendency : ℚ
  cognitive_concern : String
deriving DecidableEq, Repr

/-- One required-key check of `_validate_result`'s loop for a
float-expected key: missing key or non-numeric type raises
(`.error`), otherwise the value is coerced with `float(...)`. -/
def requireFloat (d : PyDict) (k : String) : Except String ℚ :=
  match dictGet d k with
  | none => .error ("Featherless AI response is missing required key: " ++ k)
  | some v =>
      match asPyFloat v with
      | none => .error ("Key " ++ k ++ " has invalid type.")
      | some q => .ok q

/-- The required-key check for the string-expected key
`cognitive_concern`. -/
def requireStr (d : PyDict) (k : String) : Except String String :=
  match dictGet d k with
  | none => .error ("Featherless AI response is missing required key: " ++ k)
  | some v =>
      match asPyStr v with
      | none => .error ("Key " ++ k ++ " has invalid type.")
      | some s => .ok s

/-- Model of `_validate_result` from lexical_analyzer.py (lines 216-244):
checks the five required keys in `_REQUIRED_KEYS` order (int accepted
where float expected, raising on the first missing key or bad type),
then the `cognitive_concern` enum, then clamps the four numeric fields
to `[0, 1]`.  A raised `RuntimeError` is the `.error` case. -/
def _validate_result (d : PyDict) : Except String LexMetrics :=
  match requireFloat d "vocabulary_richness" with
  | .error e => .error e
  | .ok v =>
  match requireFloat d "sentence_coherence" with
  | .error e => .error e
  | .ok s =>
  match requireFloat d "word_finding_difficulty" with
  | .error e => .error e
  | .ok w =>
  match requireFloat d "repetition_tendency" with
  | .error e => .error e
  | .ok r =>
  match requireStr d "cognitive_concern" with
  | .error e => .error e
  | .ok c =>
  if c = "Low" ∨ c = "Medium" ∨ c = "High" then
    .ok ⟨clamp01 v, clamp01 s, clamp01 w, clamp01 r, c⟩
  else
    .error "cognitive_concern must be one of Low, Medium, High."

/-- Result of one HTTP attempt against the Featherless endpoint.
`response st body` is a completed HTTP response of status `st`; `body`
is the parsed JSON object of the completion text (`some d`), or `none`
when response-structure extraction / JSON parsing of the content fails
(`_parse_llm_json` and the `choices`-extraction both raise
`RuntimeError`; they are abstracted to their outcome). -/
inductive CallAttempt where
  | timeout
  | netError
  | response (status : ℕ) (body : Option PyDict)

/-- Outcome of the retry loop of `analyze_lexical_cognition`
(lexical_analyzer.py lines 108-147), with the number of HTTP calls made
and the backoff delays slept between attempts. -/
inductive LoopResult where
  | authError (calls : ℕ) (backoffs : List ℚ)
  | exhausted (calls : ℕ) (backoffs : List ℚ)
  | gotBody (body : Option PyDict) (calls : ℕ) (backoffs : List ℚ)
deriving Repr

/-- Model of `MAX_RETRIES` (lexical_analyzer.py line 34). -/
def MAX_RETRIES : ℕ := 2

/-- Model of `BASE_BACKOFF_SECONDS * (2 ** (attempt - 1))` (line 140). -/
def backoffOf (attempt : ℕ) : ℚ := 1.0 * 2 ^ (attempt - 1)

/-- The body of the `for attempt in range(1, MAX_RETRIES + 2)` loop:
`remaining` counts attempts still allowed including the current one.
A 401/403 response raises `RuntimeError` out of the loop immediately
(the `except` clauses only catch httpx errors); any other `>= 400`
status, a timeout, or a network error is caught and retried after a
backoff sleep, until the `for`-`else` raises after the last attempt. -/
def retryFrom (oracle : ℕ → CallAttempt) : ℕ → ℕ → List ℚ → LoopResult
  | 0, attempt, backoffs => .exhausted (attempt - 1) backoffs
  | remaining + 1, attempt, backoffs =>
      match oracle attempt with
      | .response st body =>
          if st = 401 ∨ st = 403 then .authError attempt backoffs
          else if 400 ≤ st then
            if remaining = 0 then .exhausted attempt backoffs
            else retryFrom oracle remaining (attempt + 1) (backoffs ++ [backoffOf attempt])
          else .gotBody body attempt backoffs
      | _ =>
          if remaining = 0 then .exhausted attempt backoffs
          else retryFrom oracle remaining (attempt + 1) (backoffs ++ [backoffOf attempt])

/-- The full retry loop: attempts 1, 2, 3. -/
def retryLoop (oracle : ℕ → CallAttempt) : LoopResult :=
  retryFrom oracle (MAX_RETRIES + 1) 1 []

/-- A raised Python exception, as caught by `run_lexical_analysis`. -/
inductive PyError where
  | valueError (msg : String)
  | runtimeError (msg : String)
deriving DecidableEq, Repr

/-- Network-side telemetry: how many HTTP calls were made and which
backoff delays were slept. -/
structure CallTrace where
  calls : ℕ
  backoffs : List ℚ
deriving DecidableEq, Repr

/-- Model of `analyze_lexical_cognition` from lexical_analyzer.py (lines 60-167).
`hasKey` models whether `FEATHERLESS_API_KEY` is set; `oracle n` is the
result of the `n`-th HTTP attempt. -/
def analyze_lexical_cognition (hasKey : Bool) (oracle : ℕ → CallAttempt)
    (transcript : String) : Except PyError LexMetrics × CallTrace :=
  if transcript = "" ∨ pyStrip transcript = "" then
    (.error (.valueError "Transcript must be a non-empty string."), ⟨0, []⟩)
  else if (pyStrip transcript).length < 10 then
    (.error (.valueError "Transcript must be at least 10 characters for lexical analysis."), ⟨0, []⟩)
  else if hasKey = false then
    (.error (.runtimeError "Featherless API key is not configured. Set the FEATHERLESS_API_KEY environment variable."), ⟨0, []⟩)
  else
    match retryLoop oracle with
    | .authError calls backoffs =>
        (.error (.runtimeError "Invalid or unauthorized Featherless API Key"), ⟨calls, backoffs⟩)
    | .exhausted calls backoffs =>
        (.error (.runtimeError "Featherless API unreachable after 3 attempts."), ⟨calls, backoffs⟩)
    | .gotBody none calls backoffs =>
        (.error (.runtimeError "Featherless AI did not return valid JSON."), ⟨calls, backoffs⟩)
    | .gotBody (some body) calls backoffs =>
        match _validate_result body with
        | .ok m => (.ok m, ⟨calls, backoffs⟩)
        | .error msg => (.error (.runtimeError msg), ⟨calls, backoffs⟩)

/-- The tagged outcome dict of `run_lexical_analysis`: either
`status='success'` with the metrics, or `status='unavailable'` with
`error_type` and `message`. -/
inductive LexOutcome where
  | success (m : LexMetrics)
  | unavailable (error_type : String) (message : String)
deriving DecidableEq, Repr

/-- The `error_type` field of the outcome (`none` on success). -/
def LexOutcome.errorType : LexOutcome → Option String
  | .success _ => none
  | .unavailable e _ => some e

/-- Model of `run_lexical_analysis` from risk_engine.py (lines 454-501): the
empty-transcript fast path returns `error_type='empty_transcript'`
before any network call; otherwise exceptions from
`analyze_lexical_cognition` are mapped `ValueError ↦ input_validation`,
`RuntimeError ↦ api_failure`. -/
def run_lexical_analysis (hasKey : Bool) (oracle : ℕ → CallAttempt)
    (transcript : String) : LexOutcome × CallTrace :=
  if transcript = "" ∨ pyStrip transcript = "" then
    (.unavailable "empty_transcript" "No transcript available for lexical analysis.", ⟨0, []⟩)
  else
    match analyze_lexical_cognition hasKey oracle transcript with
    | (.ok m, t) => (.success m, t)
    | (.error (.valueError msg), t) => (.unavailable "input_validation" msg, t)
    | (.error (.runtimeError msg), t) =>
        (.unavailable "api_failure" ("Lexical analysis could not be completed: " ++ msg), t)

/-! ### Cognitive score, final fusion, explanation (risk_engine.py) -/

/-- Model of `compute_cognitive_score` from risk_engine.py (lines 506-533).
After validation the four numeric keys are always present, so the
`.get(..., 0.5)` defaults are never taken; the function is a function of
the validated metrics. -/
def compute_cognitive_score (m : LexMetrics) : ℚ :=
  let vocab := m.vocabulary_richness
  let coherence := m.sentence_coherence
  let word_diff := m.word_finding_difficulty
  let repetition := m.repetition_tendency
  let health := vocab * 0.25 + coherence * 0.25
    + (1 - word_diff) * 0.25 + (1 - repetition) * 0.25
  pyRound 1 (_clamp ((1 - health) * 100))

/-- The internal `final_score` of `compute_final_neuro_risk`
(risk_engine.py lines 552-566): the fused (or acoustic-only) score,
rounded to one decimal, then clamped. -/
def finalScore (acoustic_risk : ℚ) (cognitive_score : Option ℚ) : ℚ :=
  _clamp (match cognitive_score with
    | some c => pyRound 1 (acoustic_risk * 0.6 + c * 0.4)
    | none => pyRound 1 acoustic_risk)

/-- The `NeuroRiskVerdict` dict returned by `compute_final_neuro_risk`.
Note that the fused `final_score` itself is *not* a field of the
returned dict — only the level derived from it is. -/
structure Verdict where
  acoustic_risk_score : ℚ
  cognitive_risk_score : Option ℚ
  neuro_risk_level : String
  confidence : ℚ
  cognitive_available : Bool
deriving DecidableEq, Repr

/-- Model of `compute_final_neuro_risk` from risk_engine.py (lines 538-589).
`noise` is the `random.uniform(-0.05, 0.05)` draw of the confidence
formula, passed explicitly. -/
def compute_final_neuro_risk (acoustic_risk : ℚ) (cognitive_score : Option ℚ)
    (noise : ℚ) : Verdict :=
  let cognitive_available := cognitive_score.isSome
  let final := finalScore acoustic_risk cognitive_score
  let level :=
    if final < 30 then "Low"
    else if final < 60 then "Medium"
    else "High"
  let base_confidence : ℚ := if cognitive_available then 0.85 else 0.65
  let confidence := pyRound 2 (max 0.3 (min 0.95 (base_confidence - |final - 50| * 0.005 + noise)))
  { acoustic_risk_score := acoustic_risk
    cognitive_risk_score := cognitive_score.map (pyRound 1)
    neuro_risk_level := level
    confidence := confidence
    cognitive_available := cognitive_available }

/-- Python `str()` of a float value carrying at most one decimal digit
(the only floats interpolated into the opening sentence are scores
produced by `round(x, 1)`), and of `None`.  For `none` this is the
literal text `"None"`. -/
def scoreText : Option ℚ → String
  | none => "None"
  | some q =>
      let t := roundHalfEven (q * 10)
      toString (t / 10) ++ "." ++ toString (t % 10)

/-- Python `str()` of an arbitrary float, used for the jitter
interpolation in `generate_explanation`; approximated at four decimal
digits (jitter values are produced by `round(x, 4)`). -/
def floatText (q : ℚ) : String :=
  let t := roundHalfEven (q * 10000)
  toString (t / 10000) ++ "." ++ toString (t % 10000)

/-- Python `f"{x:.2f}"`. -/
def floatText2 (q : ℚ) : String :=
  let t := roundHalfEven (q * 100)
  toString (t / 100) ++ "." ++ toString (t % 100)

/-- The placeholder lexical dict from `lexical_analysis_placeholder`
(risk_engine.py lines 321-349); only `coherence_score` is read by
`generate_explanation`. -/
structure LexicalPlaceholder where
  coherence_score : ℚ
  vocabulary_richness : ℚ
  repetition_index : ℚ
  summary : String
deriving DecidableEq, Repr

/-- The opening sentence of `generate_explanation` (risk_engine.py lines
407-423): the branch follows `neuro_risk_level`, and `score` is the
interpolated text of `risk["cognitive_risk_score"]`. -/
def openingText (level : String) (score : String) : String :=
  if level = "Low" then
    "Overall cognitive risk assessment is **Low** (score: " ++ score
      ++ "/100). Voice biomarkers are within healthy parameters."
  else if level = "Medium" then
    "Cognitive risk assessment is **Medium** (score: " ++ score
      ++ "/100). Some acoustic markers show mild deviation from expected baseline patterns."
  else
    "Cognitive risk assessment is **High** (score: " ++ score
      ++ "/100). Multiple voice biomarkers show significant deviation from baseline. "
      ++ "Professional evaluation is recommended."

/-- The narrative parts and recommendation list built by
`generate_explanation` (risk_engine.py lines 392-448), before the parts
are joined with spaces. -/
def explanationParts (f : Features) (b : Baseline) (risk : Verdict)
    (lexical : LexicalPlaceholder) : List String × List String :=
  let cognitive := risk.cognitive_risk_score
  let parts : List String := [openingText risk.neuro_risk_level (scoreText cognitive)]
  let jitter := f.jitter_percent
  let parts := parts ++ (if jitter > 2.0 then
    ["Elevated vocal jitter (" ++ floatText jitter ++ "%) suggests increased laryngeal instability."] else [])
  let recs : List String := (if jitter > 2.0 then
    ["Consider an ENT evaluation to rule out vocal cord pathology."] else [])
  let stability := f.pitch_stability
  let parts := parts ++ (if stability < 0.6 then
    ["Pitch stability is below normal (" ++ floatText2 stability ++ "), indicating potential motor speech changes."] else [])
  let driftFires := b.status = "significant_drift" ∨ b.status = "critical_drift"
  let parts := parts ++ (if driftFires then
    ["Vocal Twin comparison shows " ++ String.replace b.status "_" " " ++ " from your stored baseline."] else [])
  let recs := recs ++ (if driftFires then
    ["Schedule a follow-up recording in 2 weeks to track progression."] else [])
  let lexFires := lexical.coherence_score < 65
  let parts := parts ++ (if lexFires then
    ["Lexical analysis indicates reduced semantic coherence in speech content."] else [])
  let recs := recs ++ (if lexFires then
    ["Consider a brief cognitive screening (e.g., MoCA) with your primary care provider."] else [])
  let recs := if recs = [] then
    ["Continue regular monitoring with bi-weekly voice recordings.",
     "Maintain a healthy lifestyle with adequate sleep and hydration."] else recs
  (parts, recs)

/-- Model of `generate_explanation`'s returned pair: the parts joined with
spaces, and the recommendations. -/
def generate_explanation (f : Features) (b : Baseline) (risk : Verdict)
    (lexical : LexicalPlaceholder) : String × List String :=
  let (parts, recs) := explanationParts f b risk lexical
  (String.intercalate " " parts, recs)

/-! ### Spec-side definitions

The following definitions transcribe the formulas exactly as the
specification states them (spec.md §4.2, §4.3, §4.5, §8), to be compared
with the code-side definitions above. -/

/-- Combined lookup-and-coerce for a float-expected key: the key is
present and its value has a numeric type (int accepted where float
expected). -/
def getFloat (d : PyDict) (k : String) : Option ℚ :=
  (dictGet d k).bind asPyFloat

/-- Combined lookup for the string-expected key. -/
def getStr (d : PyDict) (k : String) : Option String :=
  (dictGet d k).bind asPyStr

/-- Spec predicate (spec.md §4.4, §8): all five keys are present with
valid numeric/string types and `cognitive_concern` is one of the three
allowed values. -/
def specLexicalValidResponse (d : PyDict) : Bool :=
  (getFloat d "vocabulary_richness").isSome &&
  (getFloat d "sentence_coherence").isSome &&
  (getFloat d "word_finding_difficulty").isSome &&
  (getFloat d "repetition_tendency").isSome &&
  (match getStr d "cognitive_concern" with
   | some s => s == "Low" || s == "Medium" || s == "High"
   | none => false)

/-- Spec formula (spec.md §4.3): `sigmoid(v) = 100/(1 + e^(−(v−center)·steepness))`. -/
def specSigmoid (E : ℚ → ℚ) (v center steepness : ℚ) : ℚ :=
  100 / (1 + E (-((v - center) * steepness)))

/-- Spec formula (spec.md §4.3): the heuristic weighted sum
`sigmoid(jitter; 2.0, 3.0)·0.20 + sigmoid(shimmer; 5.0, 2.0)·0.15 +
(1−pitch_stability)·100·0.20 + max(0, 100−HNR·4)·0.15 +
baseline_deviation·0.30`. -/
def specHeuristicSum (E : ℚ → ℚ) (f : Features) (b : Baseline) : ℚ :=
  specSigmoid E f.jitter_percent 2.0 3.0 * 0.20
  + specSigmoid E f.shimmer_percent 5.0 2.0 * 0.15
  + (1 - f.pitch_stability) * 100 * 0.20
  + max 0 (100 - f.harmonics_to_noise * 4) * 0.15
  + b.deviation_score * 0.30

/-- Spec formula (spec.md §4.5): `health = 0.25·vocabulary_richness +
0.25·sentence_coherence + 0.25·(1−word_finding_difficulty) +
0.25·(1−repetition_tendency)`. -/
def specHealth (m : LexMetrics) : ℚ :=
  0.25 * m.vocabulary_richness + 0.25 * m.sentence_coherence
  + 0.25 * (1 - m.word_finding_difficulty) + 0.25 * (1 - m.repetition_tendency)

/-- Spec formula (spec.md §4.5): `cognitive_risk = clamp((1−health)·100)`. -/
def specCognitiveRisk (m : LexMetrics) : ℚ :=
  _clamp ((1 - specHealth m) * 100)

/-- Spec status bins (spec.md §4.2): `<20 normal, <45 mild, <70
significant, else critical`. -/
def specStatusBin (ds : ℚ) : String :=
  if ds < 20 then "normal"
  else if ds < 45 then "mild_drift"
  else if ds < 70 then "significant_drift"
  else "critical_drift"

/-- Severity order of the four baseline statuses, to state that the bin
function is monotonic. -/
def statusRank (s : String) : ℕ :=
  if s = "normal" then 0
  else if s = "mild_drift" then 1
  else if s = "significant_drift" then 2
  else 3

/-! ### Concrete example inputs -/

/-- Example feature record: jitter 2 %, shimmer 5 %, perfect pitch
stability, HNR 25 dB. -/
def exampleFeatures : Features :=
  { jitter_percent := 2, shimmer_percent := 5, mean_pitch_hz := 150
    pitch_std_hz := 10, pitch_stability := 1, pause_ratio := 0.15
    speech_rate := 3.5, harmonics_to_noise := 25 }

/-- Example baseline record with a small fractional deviation score. -/
def exampleBaseline : Baseline :=
  { deviation_score := 0.1, mfcc_drift := 0, pitch_deviation := 0
    rhythm_deviation := 0, status := "normal" }

/-- Feature record sitting exactly on the baseline reference constants
(jitter 1.2, shimmer 3.5, pitch std 12, pause ratio 0.12), so all three
unperturbed sub-deviations are zero. -/
def referenceFeatures : Features :=
  { jitter_percent := 1.2, shimmer_percent := 3.5, mean_pitch_hz := 150
    pitch_std_hz := 12, pitch_stability := 0.8, pause_ratio := 0.12
    speech_rate := 3.5, harmonics_to_noise := 20 }

/-- A fully valid parsed LLM response (all four numeric fields, one as a
plain int, and a legal concern value). -/
def validLexDict : PyDict :=
  [("vocabulary_richness", .pyFloat 0.8), ("sentence_coherence", .pyFloat 0.9),
   ("word_finding_difficulty", .pyFloat 0.1), ("repetition_tendency", .pyInt 0),
   ("cognitive_concern", .pyStr "Medium")]

/-- The metrics that `_validate_result` produces for `validLexDict`. -/
def validLexMetrics : LexMetrics := ⟨0.8, 0.9, 0.1, 0, "Medium"⟩

/-- A parsed LLM response in which two numeric fields are JSON booleans. -/
def boolLexDict : PyDict :=
  [("vocabulary_richness", .pyBool true), ("sentence_coherence", .pyFloat 0.7),
   ("word_finding_difficulty", .pyFloat 0.2), ("repetition_tendency", .pyBool false),
   ("cognitive_concern", .pyStr "Low")]

/-- The metrics that `_validate_result` produces for `boolLexDict`:
`true` is coerced to `1.0` and `false` to `0.0`. -/
def boolLexMetrics : LexMetrics := ⟨1, 0.7, 0.2, 0, "Low"⟩

/-- A transcript passing both input-validation checks. -/
def okTranscript : String := "This is a placeholder transcript for demonstration purposes."

/-! ### Arithmetic helper lemmas -/

theorem floor_le_roundHalfEven (q : ℚ) : ⌊q⌋ ≤ roundHalfEven q := by
  unfold roundHalfEven
  split_ifs <;> omega

theorem roundHalfEven_le_ceil (q : ℚ) : roundHalfEven q ≤ ⌈q⌉ := by
  have hfc : ⌊q⌋ ≤ ⌈q⌉ := Int.floor_le_ceil q
  have hle : q ≤ (⌈q⌉ : ℚ) := Int.le_ceil q
  unfold roundHalfEven
  split_ifs with h1 h2 h3
  · exact hfc
  · have h4 : (⌊q⌋ : ℚ) < q := by push_neg at h1; linarith
    have h6 : ⌊q⌋ < ⌈q⌉ := by exact_mod_cast lt_of_lt_of_le h4 hle
    omega
  · exact hfc
  · have h4 : (⌊q⌋ : ℚ) < q := by push_neg at h1; linarith
    have h6 : ⌊q⌋ < ⌈q⌉ := by exact_mod_cast lt_of_lt_of_le h4 hle
    omega

theorem roundHalfEven_intCast (k : ℤ) : roundHalfEven (k : ℚ) = k := by
  unfold roundHalfEven
  rw [Int.floor_intCast]
  norm_num

theorem pyRound_mem (n : ℕ) (q : ℚ) (h0 : 0 ≤ q) (h1 : q ≤ 100) :
    0 ≤ pyRound n q ∧ pyRound n q ≤ 100 := by
  have hp : (0 : ℚ) < 10 ^ n := by positivity
  constructor
  · have hfl : (0 : ℤ) ≤ ⌊q * 10 ^ n⌋ := Int.floor_nonneg.mpr (by positivity)
    have hk : (0 : ℤ) ≤ roundHalfEven (q * 10 ^ n) :=
      le_trans hfl (floor_le_roundHalfEven _)
    unfold pyRound
    exact div_nonneg (by exact_mod_cast hk) hp.le
  · have hcmono : ⌈q * 10 ^ n⌉ ≤ ⌈(100 * 10 ^ n : ℚ)⌉ :=
      Int.ceil_mono (by nlinarith)
    have hcast : ((100 * 10 ^ n : ℤ) : ℚ) = 100 * 10 ^ n := by push_cast; ring
    have hcv : ⌈(100 * 10 ^ n : ℚ)⌉ = (100 * 10 ^ n : ℤ) := by
      rw [← hcast, Int.ceil_intCast]
    have hk : roundHalfEven (q * 10 ^ n) ≤ (100 * 10 ^ n : ℤ) := by
      calc roundHalfEven (q * 10 ^ n) ≤ ⌈q * 10 ^ n⌉ := roundHalfEven_le_ceil _
        _ ≤ (100 * 10 ^ n : ℤ) := by rw [← hcv]; exact hcmono
    unfold pyRound
    rw [div_le_iff₀ hp]
    calc (roundHalfEven (q * 10 ^ n) : ℚ) ≤ ((100 * 10 ^ n : ℤ) : ℚ) := by exact_mod_cast hk
      _ = 100 * 10 ^ n := hcast

theorem _clamp_mem (v : ℚ) : 0 ≤ _clamp v ∧ _clamp v ≤ 100 :=
  ⟨le_max_left 0 _, max_le (by norm_num) (min_le_left 100 v)⟩

theorem pyRound_clamp_mem (n : ℕ) (x : ℚ) :
    0 ≤ pyRound n (_clamp x) ∧ pyRound n (_clamp x) ≤ 100 :=
  pyRound_mem n _ (_clamp_mem x).1 (_clamp_mem x).2

theorem pyRound_div_pow (n : ℕ) (k : ℤ) :
    pyRound n ((k : ℚ) / 10 ^ n) = (k : ℚ) / 10 ^ n := by
  have hp : (10 : ℚ) ^ n ≠ 0 := by positivity
  unfold pyRound
  rw [div_mul_cancel₀ _ hp, roundHalfEven_intCast]

theorem pyRound_clamp_pyRound (n : ℕ) (x : ℚ) :
    pyRound n (_clamp (pyRound n x)) = _clamp (pyRound n x) := by
  have hk : pyRound n x = ((roundHalfEven (x * 10 ^ n) : ℤ) : ℚ) / 10 ^ n := rfl
  set k : ℤ := roundHalfEven (x * 10 ^ n) with hkdef
  have hcl : ∃ m : ℤ, _clamp (pyRound n x) = (m : ℚ) / 10 ^ n := by
    rcases le_total (100 : ℚ) ((k : ℚ) / 10 ^ n) with h | h
    · refine ⟨100 * 10 ^ n, ?_⟩
      rw [hk]
      unfold _clamp
      rw [min_eq_left h, max_eq_right (by norm_num : (0:ℚ) ≤ 100)]
      have hp : (10 : ℚ) ^ n ≠ 0 := by positivity
      push_cast
      field_simp
    · rcases le_total ((k : ℚ) / 10 ^ n) 0 with h2 | h2
      · refine ⟨0, ?_⟩
        rw [hk]
        unfold _clamp
        rw [min_eq_right h, max_eq_left h2]
        simp
      · refine ⟨k, ?_⟩
        rw [hk]
        unfold _clamp
        rw [min_eq_right h, max_eq_right h2]
  obtain ⟨m, hm⟩ := hcl
  rw [hm, pyRound_div_pow]

theorem clamp01_mem (q : ℚ) : 0 ≤ clamp01 q ∧ clamp01 q ≤ 1 :=
  ⟨le_max_left 0 _, max_le (by norm_num) (min_le_left 1 q)⟩

/-! ### Claim C5: compute_acoustic_risk is total and in [0, 100] -/

/-- C5: for every feature record (in particular the extreme values
jitter = 0, jitter = 100, HNR = 0, HNR = 100), every baseline, every
abstracted exponential and every classifier outcome — including the
heuristic-only path (`ml = none`) and the classifier-blend path
(`ml = some p` for any probability) — `compute_acoustic_risk` is a total
function whose value lies in [0, 100]. -/
theorem compute_acoustic_risk_in_range :
    ∀ (E : ℚ → ℚ) (f : Features) (b : Baseline) (ml : Option ℚ),
    0 ≤ compute_acoustic_risk E f b ml ∧ compute_acoustic_risk E f b ml ≤ 100 := by
  intro E f b ml
  cases ml <;> exact pyRound_clamp_mem 1 _

/-! ### Claim C6: the heuristic acoustic risk formula -/

/-- C6 counterexample: with the exponential instantiated to the constant
function 1 (each sigmoid term is then exactly 50) and a baseline
deviation of 0.1, the weighted sum is 17.53, but the code returns
`round(clamp(17.53), 1) = 17.5`: the heuristic estimator is *not*
exactly the clamped weighted sum. -/
theorem heuristic_risk_counterexample :
    _heuristic_acoustic_risk (fun _ => 1) exampleFeatures exampleBaseline ≠
      _clamp (specHeuristicSum (fun _ => 1) exampleFeatures exampleBaseline) := by
  norm_num [_heuristic_acoustic_risk, specHeuristicSum, _sigmoid_risk, specSigmoid,
    exampleFeatures, exampleBaseline, _clamp, pyRound, roundHalfEven, max_def, min_def]

/-- C6 (amended): the heuristic estimator equals the spec weighted sum,
clamped to [0, 100] *and then rounded to one decimal place*. -/
theorem heuristic_risk_formula :
    ∀ (E : ℚ → ℚ) (f : Features) (b : Baseline),
    _heuristic_acoustic_risk E f b = pyRound 1 (_clamp (specHeuristicSum E f b)) := by
  intro E f b
  rfl

/-! ### Claim C7: compute_cognitive_score -/

/-- C7 counterexample: for vocabulary 0.01 and the other three fields at
their worst values, `(1 - health) * 100 = 99.75`, but the code returns
`round(99.75, 1) = 99.8`: the result is *not* exactly
`clamp((1 - health) * 100)`. -/
theorem compute_cognitive_score_counterexample :
    compute_cognitive_score ⟨0.01, 0, 1, 1, "High"⟩ ≠
      specCognitiveRisk ⟨0.01, 0, 1, 1, "High"⟩ := by
  norm_num [compute_cognitive_score, specCognitiveRisk, specHealth,
    _clamp, pyRound, roundHalfEven, max_def, min_def]

/-- C7 (amended): `compute_cognitive_score` equals the spec
inverse-health formula `clamp((1 - health) * 100)` rounded to one
decimal place; the two spec examples hold exactly: all-healthy metrics
give 0, all-inverted metrics give 100. -/
theorem compute_cognitive_score_formula :
    ∀ m : LexMetrics,
    compute_cognitive_score m = pyRound 1 (specCognitiveRisk m) ∧
    compute_cognitive_score ⟨1, 1, 0, 0, "Low"⟩ = 0 ∧
    compute_cognitive_score ⟨0, 0, 1, 1, "High"⟩ = 100 := by
  intro m
  refine ⟨?_, ?_, ?_⟩
  · simp only [compute_cognitive_score, specCognitiveRisk, specHealth]
    congr 2
    ring
  · norm_num [compute_cognitive_score, _clamp, pyRound, roundHalfEven, max_def, min_def]
  · norm_num [compute_cognitive_score, _clamp, pyRound, roundHalfEven, max_def, min_def]

/-! ### Claim C4: final neuro-risk fusion -/

/-- C4 counterexample: for acoustic = 0.05 with cognitive = 0 present,
the code computes `clamp(round(0.05·0.6 + 0·0.4, 1)) = clamp(round(0.03, 1)) = 0`,
not `clamp(0.6·0.05 + 0.4·0) = 0.03`: the fused final score is *not*
exactly `clamp(0.6·acoustic + 0.4·cognitive)`. -/
theorem final_fusion_counterexample :
    finalScore 0.05 (some 0) ≠ _clamp (0.6 * 0.05 + 0.4 * 0) := by
  norm_num [finalScore, _clamp, pyRound, roundHalfEven, max_def, min_def]

/-- C4 (amended): with a cognitive score present the final score is
`clamp` of the fusion `0.6·acoustic + 0.4·cognitive` *rounded to one
decimal place* (and `cognitive_available = true`); with no cognitive
score it is `clamp` of the rounded acoustic score alone (and
`cognitive_available = false`); the returned level is Low below 30,
Medium below 60, else High, as a function of that final score; and the
two spec examples hold exactly: acoustic 80 alone gives 80, acoustic 80
with cognitive 20 gives 56. -/
theorem final_fusion_formula :
    ∀ (a c noise : ℚ) (co : Option ℚ),
    finalScore a (some c) = _clamp (pyRound 1 (0.6 * a + 0.4 * c)) ∧
    finalScore a none = _clamp (pyRound 1 a) ∧
    (compute_final_neuro_risk a (some c) noise).cognitive_available = true ∧
    (compute_final_neuro_risk a none noise).cognitive_available = false ∧
    (compute_final_neuro_risk a co noise).neuro_risk_level =
      (if finalScore a co < 30 then "Low"
       else if finalScore a co < 60 then "Medium" else "High") ∧
    finalScore 80 none = 80 ∧
    finalScore 80 (some 20) = 56 := by
  intro a c noise co
  refine ⟨?_, rfl, rfl, rfl, rfl, ?_, ?_⟩
  · simp only [finalScore]
    congr 2
    ring
  · norm_num [finalScore, _clamp, pyRound, roundHalfEven, max_def, min_def]
  · norm_num [finalScore, _clamp, pyRound, roundHalfEven, max_def, min_def]

/-! ### Claim C8: baseline comparison -/

/-- C8 counterexample: with features exactly on the reference constants
and perturbations (0.01, 0, 0), the returned sub-scores are
mfcc_drift = 0.01, pitch_deviation = 0, rhythm_deviation = 0, but the
returned deviation_score is `clamp(round(0.004, 2)) = 0`, not
`clamp(0.4·0.01 + 0.3·0 + 0.3·0) = 0.004`: the deviation score is *not*
exactly the clamped weighted sum of the returned sub-scores. -/
theorem compare_to_baseline_counterexample :
    (compare_to_baseline referenceFeatures 0.01 0 0).deviation_score ≠
      _clamp (0.4 * (compare_to_baseline referenceFeatures 0.01 0 0).mfcc_drift
        + 0.3 * (compare_to_baseline referenceFeatures 0.01 0 0).pitch_deviation
        + 0.3 * (compare_to_baseline referenceFeatures 0.01 0 0).rhythm_deviation) := by
  norm_num [compare_to_baseline, referenceFeatures, mfccDriftRaw, pitchDeviationRaw,
    rhythmDeviationRaw, _clamp, pyRound, roundHalfEven, max_def, min_def]

/-- C8 (amended): for every feature record and noise draw, the returned
`deviation_score` is `clamp` of the weighted sum
`0.4·mfcc_drift + 0.3·pitch_deviation + 0.3·rhythm_deviation` of the
*unrounded* sub-scores, *rounded to two decimal places* (the returned
sub-score fields are those sub-scores rounded to two decimals); the
returned status is exactly the four-bin function of the returned
`deviation_score` (< 20 normal, < 45 mild_drift, < 70
significant_drift, else critical_drift), and this bin function is
monotonic and non-overlapping. -/
theorem compare_to_baseline_formula :
    ∀ (f : Features) (n1 n2 n3 : ℚ),
    (compare_to_baseline f n1 n2 n3).deviation_score =
      _clamp (pyRound 2 (0.4 * mfccDriftRaw f n1 + 0.3 * pitchDeviationRaw f n2
        + 0.3 * rhythmDeviationRaw f n3)) ∧
    (compare_to_baseline f n1 n2 n3).mfcc_drift = pyRound 2 (mfccDriftRaw f n1) ∧
    (compare_to_baseline f n1 n2 n3).pitch_deviation = pyRound 2 (pitchDeviationRaw f n2) ∧
    (compare_to_baseline f n1 n2 n3).rhythm_deviation = pyRound 2 (rhythmDeviationRaw f n3) ∧
    (compare_to_baseline f n1 n2 n3).status =
      specStatusBin ((compare_to_baseline f n1 n2 n3).deviation_score) ∧
    (∀ d1 d2 : ℚ, d1 ≤ d2 → statusRank (specStatusBin d1) ≤ statusRank (specStatusBin d2)) := by
  intro f n1 n2 n3
  have hsum : mfccDriftRaw f n1 * 0.4 + pitchDeviationRaw f n2 * 0.3 + rhythmDeviationRaw f n3 * 0.3
      = 0.4 * mfccDriftRaw f n1 + 0.3 * pitchDeviationRaw f n2 + 0.3 * rhythmDeviationRaw f n3 := by
    ring
  have hds : (compare_to_baseline f n1 n2 n3).deviation_score
      = _clamp (pyRound 2 (mfccDriftRaw f n1 * 0.4 + pitchDeviationRaw f n2 * 0.3
          + rhythmDeviationRaw f n3 * 0.3)) := pyRound_clamp_pyRound 2 _
  refine ⟨?_, rfl, rfl, rfl, ?_, ?_⟩
  · rw [hds, hsum]
  · rw [hds]
    rfl
  · intro d1 d2 h
    have hrank : ∀ x : ℚ, statusRank (specStatusBin x) =
        (if x < 20 then 0 else if x < 45 then 1 else if x < 70 then 2 else 3) := by
      intro x
      unfold specStatusBin
      split_ifs <;> rfl
    rw [hrank, hrank]
    split_ifs <;> try norm_num
    all_goals linarith

/-- C8 witness: the monotonicity clause applied at the concrete pair
(10, 50), and the deviation-score equation at the reference features. -/
theorem compare_to_baseline_formula_witness :
    statusRank (specStatusBin 10) ≤ statusRank (specStatusBin 50) :=
  (compare_to_baseline_formula referenceFeatures 0 0 0).2.2.2.2.2 10 50 (by norm_num)

/-! ### Retry-loop unfolding -/

theorem retryFrom_succ (oracle : ℕ → CallAttempt) (r attempt : ℕ) (backoffs : List ℚ) :
    retryFrom oracle (r + 1) attempt backoffs =
      match oracle attempt with
      | .response st body =>
          if st = 401 ∨ st = 403 then .authError attempt backoffs
          else if 400 ≤ st then
            if r = 0 then .exhausted attempt backoffs
            else retryFrom oracle r (attempt + 1) (backoffs ++ [backoffOf attempt])
          else .gotBody body attempt backoffs
      | _ =>
          if r = 0 then .exhausted attempt backoffs
          else retryFrom oracle r (attempt + 1) (backoffs ++ [backoffOf attempt]) := rfl

/-! ### Claim C2: empty or whitespace-only transcript -/

/-- C2 counterexample: for the whitespace-only transcript `" "` the
outcome's error kind is the literal `"empty_transcript"`, which is not
`"input_validation"` as the claim states (`input_validation` is produced
only by the `ValueError` path, i.e. a non-empty transcript shorter than
10 characters). -/
theorem run_lexical_empty_counterexample :
    (run_lexical_analysis true (fun _ => CallAttempt.timeout) " ").1.errorType
        = some "empty_transcript" ∧
    (run_lexical_analysis true (fun _ => CallAttempt.timeout) " ").1.errorType
        ≠ some "input_validation" := by
  refine ⟨by decide, by decide⟩

/-- C2 (amended): for every transcript that is empty or whitespace-only
(its stripped form is empty), `run_lexical_analysis` returns an
unavailable outcome whose error kind is `empty_transcript`, and makes no
network call (zero HTTP attempts, no backoff sleeps), for any API-key
state and any network behaviour. -/
theorem run_lexical_empty_transcript :
    ∀ (hasKey : Bool) (oracle : ℕ → CallAttempt) (t : String), pyStrip t = "" →
    run_lexical_analysis hasKey oracle t =
      (.unavailable "empty_transcript" "No transcript available for lexical analysis.", ⟨0, []⟩) := by
  intro k o t h
  unfold run_lexical_analysis
  rw [if_pos (Or.inr h)]

/-- C2 witness: the amended theorem applied to the whitespace-only
transcript `" "`. -/
theorem run_lexical_empty_transcript_witness :
    run_lexical_analysis true (fun _ => CallAttempt.timeout) " " =
      (.unavailable "empty_transcript" "No transcript available for lexical analysis.", ⟨0, []⟩) :=
  run_lexical_empty_transcript true (fun _ => CallAttempt.timeout) " " (by decide)

/-! ### Claim C3: retry policy -/

/-- C3: for every valid transcript (non-empty after stripping, at least
10 characters) with the API key configured: (a) if all attempts time
out, the outcome is `Unavailable{api_failure}` after exactly 3 HTTP
calls with backoff sleeps of 1s then 2s between attempts; (b) a 401
response on the first attempt yields `Unavailable` after exactly 1 HTTP
call with no retry and no backoff sleep. -/
theorem retry_policy :
    ∀ (t : String), ¬(t = "" ∨ pyStrip t = "") → ¬((pyStrip t).length < 10) →
    ((∀ oracle : ℕ → CallAttempt, (∀ n, oracle n = .timeout) →
      (run_lexical_analysis true oracle t).1.errorType = some "api_failure" ∧
      (run_lexical_analysis true oracle t).2 = ⟨3, [1, 2]⟩) ∧
     (∀ (oracle : ℕ → CallAttempt) (body : Option PyDict), oracle 1 = .response 401 body →
      (run_lexical_analysis true oracle t).1.errorType = some "api_failure" ∧
      (run_lexical_analysis true oracle t).2 = ⟨1, []⟩)) := by
  intro t h1 h2
  constructor
  · intro oracle ho
    have hor : oracle = fun _ => CallAttempt.timeout := funext ho
    subst hor
    unfold run_lexical_analysis analyze_lexical_cognition
    rw [if_neg h1, if_neg h1, if_neg h2, if_neg (by simp : ¬(true = false))]
    refine ⟨rfl, ?_⟩
    show (⟨3, [backoffOf 1, backoffOf 2]⟩ : CallTrace) = ⟨3, [1, 2]⟩
    norm_num [backoffOf]
  · intro oracle body ho1
    unfold run_lexical_analysis analyze_lexical_cognition
    rw [if_neg h1, if_neg h1, if_neg h2, if_neg (by simp : ¬(true = false))]
    have hloop : retryLoop oracle = .authError 1 [] := by
      show retryFrom oracle (2 + 1) 1 [] = _
      rw [retryFrom_succ, ho1]
      rfl
    rw [hloop]
    exact ⟨rfl, rfl⟩

/-- C3 witness: the all-timeouts clause applied at a concrete valid
transcript and the constant-timeout oracle. -/
theorem retry_policy_witness :
    (run_lexical_analysis true (fun _ => CallAttempt.timeout) okTranscript).1.errorType
        = some "api_failure" ∧
    (run_lexical_analysis true (fun _ => CallAttempt.timeout) okTranscript).2 = ⟨3, [1, 2]⟩ :=
  (retry_policy okTranscript (by decide) (by decide)).1 (fun _ => CallAttempt.timeout) (fun _ => rfl)

/-! ### Claim C10: explanation opening interpolates cognitive_risk_score -/

/-- C10: the opening sentence of the explanation interpolates the
verdict's `cognitive_risk_score` field — not the fused final score,
which is not even a field of the verdict — while the Low/Medium/High
wording follows `neuro_risk_level`; a verdict built with no cognitive
score has `cognitive_risk_score = None`, so the opening renders the
literal text `None/100` (shown fully for acoustic 80, a High verdict). -/
theorem explanation_opening_uses_cognitive_field :
    (∀ (f : Features) (b : Baseline) (r : Verdict) (lex : LexicalPlaceholder),
      (explanationParts f b r lex).1.head? =
        some (openingText r.neuro_risk_level (scoreText r.cognitive_risk_score))) ∧
    (∀ (a noise : ℚ), (compute_final_neuro_risk a none noise).cognitive_risk_score = none) ∧
    scoreText none = "None" ∧
    (∀ (f : Features) (b : Baseline) (lex : LexicalPlaceholder) (noise : ℚ),
      (explanationParts f b (compute_final_neuro_risk 80 none noise) lex).1.head? =
        some ("Cognitive risk assessment is **High** (score: None/100). Multiple voice biomarkers show significant deviation from baseline. Professional evaluation is recommended.")) := by
  refine ⟨fun f b r lex => rfl, fun a noise => rfl, rfl, ?_⟩
  intro f b lex noise
  have hlev : (compute_final_neuro_risk 80 none noise).neuro_risk_level = "High" := by
    simp only [compute_final_neuro_risk, finalScore]
    norm_num [pyRound, roundHalfEven, _clamp, max_def, min_def]
  have hhead : (explanationParts f b (compute_final_neuro_risk 80 none noise) lex).1.head? =
      some (openingText (compute_final_neuro_risk 80 none noise).neuro_risk_level
        (scoreText (compute_final_neuro_risk 80 none noise).cognitive_risk_score)) := rfl
  rw [hhead, hlev]
  rfl

/-! ### Claim C9: booleans pass the numeric type check -/

/-- C9: because Python `bool` is a subclass of `int`, `_validate_result`
accepts JSON booleans for the numeric lexical fields, coercing `true` to
`1.0` and `false` to `0.0`, and the wrapper reports the outcome as a
success for such a response. -/
theorem bool_fields_accepted :
    _validate_result boolLexDict = .ok boolLexMetrics ∧
    boolLexMetrics.vocabulary_richness = 1 ∧
    boolLexMetrics.repetition_tendency = 0 ∧
    (run_lexical_analysis true (fun _ => CallAttempt.response 200 (some boolLexDict))
        okTranscript).1 = .success boolLexMetrics := by
  have hvr : _validate_result boolLexDict = .ok boolLexMetrics := by
    simp +decide [_validate_result, requireFloat, requireStr, dictGet, boolLexDict,
      List.find?, asPyFloat, asPyStr, boolLexMetrics, Option.map]
    norm_num [clamp01, max_def, min_def]
  refine ⟨hvr, rfl, rfl, ?_⟩
  unfold run_lexical_analysis analyze_lexical_cognition
  rw [if_neg (by decide : ¬(okTranscript = "" ∨ pyStrip okTranscript = "")),
      if_neg (by decide : ¬(okTranscript = "" ∨ pyStrip okTranscript = "")),
      if_neg (by decide : ¬((pyStrip okTranscript).length < 10)),
      if_neg (by simp : ¬(true = false))]
  have hloop : retryLoop (fun _ => CallAttempt.response 200 (some boolLexDict)) =
      .gotBody (some boolLexDict) 1 [] := rfl
  rw [hloop]
  simp [hvr]

/-! ### Claim C1: the validation contract of the lexical wrapper -/

theorem requireFloat_ok_of_some (d : PyDict) (k : String) (q : ℚ)
    (h : getFloat d k = some q) : requireFloat d k = .ok q := by
  unfold getFloat at h
  unfold requireFloat
  cases hd : dictGet d k with
  | none => rw [hd] at h; simp at h
  | some v =>
      rw [hd] at h
      simp only [Option.some_bind] at h
      simp [h]

theorem requireFloat_error_of_none (d : PyDict) (k : String)
    (h : getFloat d k = none) : ∃ e, requireFloat d k = .error e := by
  unfold getFloat at h
  unfold requireFloat
  cases hd : dictGet d k with
  | none => exact ⟨_, rfl⟩
  | some v =>
      rw [hd] at h
      simp only [Option.some_bind] at h
      exact ⟨"Key " ++ k ++ " has invalid type.", by simp [h]⟩

theorem requireStr_ok_of_some (d : PyDict) (k : String) (c : String)
    (h : getStr d k = some c) : requireStr d k = .ok c := by
  unfold getStr at h
  unfold requireStr
  cases hd : dictGet d k with
  | none => rw [hd] at h; simp at h
  | some v =>
      rw [hd] at h
      simp only [Option.some_bind] at h
      simp [h]

theorem requireStr_error_of_none (d : PyDict) (k : String)
    (h : getStr d k = none) : ∃ e, requireStr d k = .error e := by
  unfold getStr at h
  unfold requireStr
  cases hd : dictGet d k with
  | none => exact ⟨_, rfl⟩
  | some v =>
      rw [hd] at h
      simp only [Option.some_bind] at h
      exact ⟨"Key " ++ k ++ " has invalid type.", by simp [h]⟩

/-- C1: `_validate_result` succeeds exactly on responses that contain
all five required keys with valid numeric/string types (integers — and
hence Python booleans — accepted where floats are expected) and
`cognitive_concern` in {Low, Medium, High}; on success each numeric
field of the produced metrics is the clamp to [0, 1] of the coerced raw
value (hence lies in [0, 1]) and the concern is one of the three
allowed values; any response with a missing key, an invalid type or an
invalid enum yields an error.  Moreover the full wrapper, given a
successful HTTP response on the first attempt whose parsed body is `d`,
returns the `Success` outcome exactly when `_validate_result d`
succeeds, and otherwise the `Unavailable{api_failure}` outcome. -/
theorem lexical_validation_contract :
    ∀ d : PyDict,
    ((∃ m, _validate_result d = .ok m) ↔ specLexicalValidResponse d = true) ∧
    (∀ m, _validate_result d = .ok m →
      ((∃ q, getFloat d "vocabulary_richness" = some q ∧ m.vocabulary_richness = clamp01 q) ∧
       (∃ q, getFloat d "sentence_coherence" = some q ∧ m.sentence_coherence = clamp01 q) ∧
       (∃ q, getFloat d "word_finding_difficulty" = some q ∧ m.word_finding_difficulty = clamp01 q) ∧
       (∃ q, getFloat d "repetition_tendency" = some q ∧ m.repetition_tendency = clamp01 q) ∧
       (m.cognitive_concern = "Low" ∨ m.cognitive_concern = "Medium" ∨ m.cognitive_concern = "High") ∧
       (0 ≤ m.vocabulary_richness ∧ m.vocabulary_richness ≤ 1) ∧
       (0 ≤ m.sentence_coherence ∧ m.sentence_coherence ≤ 1) ∧
       (0 ≤ m.word_finding_difficulty ∧ m.word_finding_difficulty ≤ 1) ∧
       (0 ≤ m.repetition_tendency ∧ m.repetition_tendency ≤ 1))) ∧
    (∀ (oracle : ℕ → CallAttempt) (t : String),
      ¬(t = "" ∨ pyStrip t = "") → ¬((pyStrip t).length < 10) →
      oracle 1 = .response 200 (some d) →
      (run_lexical_analysis true oracle t).1 =
        (match _validate_result d with
         | .ok m => LexOutcome.success m
         | .error msg =>
             .unavailable "api_failure" ("Lexical analysis could not be completed: " ++ msg))) := by
  intro d
  have bridge : ∀ (oracle : ℕ → CallAttempt) (t : String),
      ¬(t = "" ∨ pyStrip t = "") → ¬((pyStrip t).length < 10) →
      oracle 1 = .response 200 (some d) →
      (run_lexical_analysis true oracle t).1 =
        (match _validate_result d with
         | .ok m => LexOutcome.success m
         | .error msg =>
             .unavailable "api_failure" ("Lexical analysis could not be completed: " ++ msg)) := by
    intro oracle t h1 h2 ho
    unfold run_lexical_analysis analyze_lexical_cognition
    rw [if_neg h1, if_neg h1, if_neg h2, if_neg (by simp : ¬(true = false))]
    have hloop : retryLoop oracle = .gotBody (some d) 1 [] := by
      show retryFrom oracle (2 + 1) 1 [] = _
      rw [retryFrom_succ, ho]
      rfl
    rw [hloop]
    cases hv : _validate_result d <;> simp [hv]
  cases hvoc : getFloat d "vocabulary_richness" with
  | none =>
      obtain ⟨e, he⟩ := requireFloat_error_of_none d _ hvoc
      have hvd : _validate_result d = .error e := by
        unfold _validate_result; rw [he]
      refine ⟨⟨fun hok => ?_, fun hs => ?_⟩, fun m hm => ?_, bridge⟩
      · obtain ⟨m, hm⟩ := hok; rw [hvd] at hm; simp at hm
      · unfold specLexicalValidResponse at hs; rw [hvoc] at hs; simp at hs
      · rw [hvd] at hm; simp at hm
  | some v =>
  have hv1 := requireFloat_ok_of_some d _ v hvoc
  cases hsen : getFloat d "sentence_coherence" with
  | none =>
      obtain ⟨e, he⟩ := requireFloat_error_of_none d _ hsen
      have hvd : _validate_result d = .error e := by
        unfold _validate_result; rw [hv1, he]
      refine ⟨⟨fun hok => ?_, fun hs => ?_⟩, fun m hm => ?_, bridge⟩
      · obtain ⟨m, hm⟩ := hok; rw [hvd] at hm; simp at hm
      · unfold specLexicalValidResponse at hs; rw [hsen] at hs; simp at hs
      · rw [hvd] at hm; simp at hm
  | some s =>
  have hv2 := requireFloat_ok_of_some d _ s hsen
  cases hwor : getFloat d "word_finding_difficulty" with
  | none =>
      obtain ⟨e, he⟩ := requireFloat_error_of_none d _ hwor
      have hvd : _validate_result d = .error e := by
        unfold _validate_result; rw [hv1, hv2, he]
      refine ⟨⟨fun hok => ?_, fun hs => ?_⟩, fun m hm => ?_, bridge⟩
      · obtain ⟨m, hm⟩ := hok; rw [hvd] at hm; simp at hm
      · unfold specLexicalValidResponse at hs; rw [hwor] at hs; simp at hs
      · rw [hvd] at hm; simp at hm
  | some w =>
  have hv3 := requireFloat_ok_of_some d _ w hwor
  cases hrep : getFloat d "repetition_tendency" with
  | none =>
      obtain ⟨e, he⟩ := requireFloat_error_of_none d _ hrep
      have hvd : _validate_result d = .error e := by
        unfold _validate_result; rw [hv1, hv2, hv3, he]
      refine ⟨⟨fun hok => ?_, fun hs => ?_⟩, fun m hm => ?_, bridge⟩
      · obtain ⟨m, hm⟩ := hok; rw [hvd] at hm; simp at hm
      · unfold specLexicalValidResponse at hs; rw [hrep] at hs; simp at hs
      · rw [hvd] at hm; simp at hm
  | some r =>
  have hv4 := requireFloat_ok_of_some d _ r hrep
  cases hcon : getStr d "cognitive_concern" with
  | none =>
      obtain ⟨e, he⟩ := requireStr_error_of_none d _ hcon
      have hvd : _validate_result d = .error e := by
        unfold _validate_result; rw [hv1, hv2, hv3, hv4, he]
      refine ⟨⟨fun hok => ?_, fun hs => ?_⟩, fun m hm => ?_, bridge⟩
      · obtain ⟨m, hm⟩ := hok; rw [hvd] at hm; simp at hm
      · unfold specLexicalValidResponse at hs; rw [hcon] at hs; simp at hs
      · rw [hvd] at hm; simp at hm
  | some c =>
  have hv5 := requireStr_ok_of_some d _ c hcon
  have hvd : _validate_result d =
      (if c = "Low" ∨ c = "Medium" ∨ c = "High" then
        .ok ⟨clamp01 v, clamp01 s, clamp01 w, clamp01 r, c⟩
      else .error "cognitive_concern must be one of Low, Medium, High.") := by
    unfold _validate_result; rw [hv1, hv2, hv3, hv4, hv5]
  by_cases hc : c = "Low" ∨ c = "Medium" ∨ c = "High"
  · rw [if_pos hc] at hvd
    refine ⟨⟨fun _ => ?_, fun _ => ⟨_, hvd⟩⟩, fun m hm => ?_, bridge⟩
    · unfold specLexicalValidResponse
      rw [hvoc, hsen, hwor, hrep, hcon]
      rcases hc with hc | hc | hc <;> simp [hc]
    · rw [hvd] at hm
      simp only [Except.ok.injEq] at hm
      subst hm
      refine ⟨⟨v, rfl, rfl⟩, ⟨s, rfl, rfl⟩, ⟨w, rfl, rfl⟩, ⟨r, rfl, rfl⟩, hc,
        clamp01_mem v, clamp01_mem s, clamp01_mem w, clamp01_mem r⟩
  · rw [if_neg hc] at hvd
    refine ⟨⟨fun hok => ?_, fun hs => ?_⟩, fun m hm => ?_, bridge⟩
    · obtain ⟨m, hm⟩ := hok; rw [hvd] at hm; simp at hm
    · exfalso
      unfold specLexicalValidResponse at hs
      rw [hcon] at hs
      simp at hs
      exact hc (by tauto)
    · rw [hvd] at hm; simp at hm

/-- C1 witness: the contract applied at a fully valid concrete response
dict, with the wrapper run on a concrete oracle and transcript. -/
theorem lexical_validation_contract_witness :
    ((∃ m, _validate_result validLexDict = .ok m) ↔
       specLexicalValidResponse validLexDict = true) ∧
    (validLexMetrics.cognitive_concern = "Low" ∨ validLexMetrics.cognitive_concern = "Medium" ∨
       validLexMetrics.cognitive_concern = "High") ∧
    (run_lexical_analysis true (fun _ => CallAttempt.response 200 (some validLexDict))
        okTranscript).1 =
      (match _validate_result validLexDict with
       | .ok m => LexOutcome.success m
       | .error msg =>
           .unavailable "api_failure" ("Lexical analysis could not be completed: " ++ msg)) := by
  have hvr : _validate_result validLexDict = .ok validLexMetrics := by
    simp +decide [_validate_result, requireFloat, requireStr, dictGet, validLexDict,
      List.find?, asPyFloat, asPyStr, validLexMetrics, Option.map]
    norm_num [clamp01, max_def, min_def]
  refine ⟨(lexical_validation_contract validLexDict).1, ?_, ?_⟩
  · exact ((lexical_validation_contract validLexDict).2.1 validLexMetrics hvr).2.2.2.2.1
  · exact (lexical_validation_contract validLexDict).2.2
      (fun _ => CallAttempt.response 200 (some validLexDict)) okTranscript
      (by decide) (by decide) rfl

end CES
